import Mathlib

/-!
Shallow embedding of the run-state store (src/store.ts) and of the
boss-beam and timer logic of the world simulator (src/unnamed/part_000)
of the running-king repository, together with proofs about the spec
claims.  JavaScript numbers are modelled as ℤ (scores, lives, costs),
ℕ (counters, millisecond timestamps) and ℚ (speeds, positions, timers).
-/

namespace RunningKing

/-- Game status enum (types.ts is not under src; values named in store.ts). -/
inductive GameStatus where
  | MENU
  | PLAYING
  | SHOP
  | GAME_OVER
  | VICTORY
deriving DecidableEq

/-- Modelled from the spec: the numeric constants RUN_SPEED_BASE,
COMBO_WINDOW_MS and MAX_MULTIPLIER are imported by store.ts from
types.ts, which is not under src, and the spec fixes no numeric values
for them; they are therefore kept as parameters of the embedding. -/
structure Consts where
  MAX_MULTIPLIER : ℕ
  COMBO_WINDOW_MS : ℕ
  RUN_SPEED_BASE : ℚ
deriving DecidableEq

/-- The state fields of the zustand store (store.ts lines 10-29). -/
structure GameState where
  status : GameStatus
  score : ℤ
  lives : ℤ
  maxLives : ℤ
  speed : ℚ
  collectedLetters : List ℕ
  level : ℕ
  laneCount : ℕ
  gemsCollected : ℕ
  distance : ℚ
  multiplier : ℕ
  multiplierEndTime : ℕ
  hasDoubleJump : Bool
  hasImmortality : Bool
  isImmortalityActive : Bool
deriving DecidableEq

/-- GEMINI_TARGET (store.ts line 50). -/
def GEMINI_TARGET : List Char := ['G', 'E', 'M', 'I', 'N', 'I']

/-- MAX_LEVEL (store.ts line 51). -/
def MAX_LEVEL : ℕ := 3

/-- The initial store state (store.ts lines 54-70). -/
def initialState : GameState :=
  { status := GameStatus.MENU
    score := 0
    lives := 3
    maxLives := 3
    speed := 0
    collectedLetters := []
    level := 1
    laneCount := 3
    gemsCollected := 0
    distance := 0
    multiplier := 1
    multiplierEndTime := 0
    hasDoubleJump := false
    hasImmortality := false
    isImmortalityActive := false }

/-- startGame (store.ts lines 72-88): overwrites every run field. -/
def startGame (c : Consts) (s : GameState) : GameState :=
  { s with
    status := GameStatus.PLAYING
    score := 0
    lives := 3
    maxLives := 3
    speed := c.RUN_SPEED_BASE
    collectedLetters := []
    level := 1
    laneCount := 3
    gemsCollected := 0
    distance := 0
    multiplier := 1
    multiplierEndTime := 0
    hasDoubleJump := false
    hasImmortality := false
    isImmortalityActive := false }

/-- restartGame (store.ts lines 90-106): identical reset to startGame. -/
def restartGame (c : Consts) (s : GameState) : GameState :=
  startGame c s

/-- takeDamage (store.ts lines 108-120).  The lives value used by the
second set call is the one read by get() before the multiplier reset. -/
def takeDamage (s : GameState) : GameState :=
  if s.isImmortalityActive then s
  else
    let s1 := { s with multiplier := 1, multiplierEndTime := 0 }
    if s.lives > 1 then { s1 with lives := s.lives - 1 }
    else { s1 with lives := 0, status := GameStatus.GAME_OVER, speed := 0 }

/-- addScore (store.ts line 122). -/
def addScore (amount : ℤ) (s : GameState) : GameState :=
  { s with score := s.score + amount }

/-- tickCombo (store.ts lines 124-129); now is the value of Date.now(). -/
def tickCombo (now : ℕ) (s : GameState) : GameState :=
  if s.status = GameStatus.PLAYING ∧ s.multiplier > 1 ∧ now > s.multiplierEndTime then
    { s with multiplier := 1 }
  else s

/-- collectGem (store.ts lines 131-150); now is the value of Date.now(). -/
def collectGem (c : Consts) (now : ℕ) (value : ℤ) (s : GameState) : GameState :=
  let isComboActive := now < s.multiplierEndTime
  let newMultiplier := if isComboActive then min (s.multiplier + 1) c.MAX_MULTIPLIER else 1
  let newEndTime := now + c.COMBO_WINDOW_MS
  { s with
    score := s.score + value * (newMultiplier : ℤ)
    gemsCollected := s.gemsCollected + 1
    multiplier := newMultiplier
    multiplierEndTime := newEndTime }

/-- setDistance (store.ts line 152). -/
def setDistance (dist : ℚ) (s : GameState) : GameState :=
  { s with distance := dist }

/-- advanceLevel (store.ts lines 201-216). -/
def advanceLevel (c : Consts) (s : GameState) : GameState :=
  { s with
    level := s.level + 1
    laneCount := min (s.laneCount + 2) 9
    status := GameStatus.PLAYING
    speed := s.speed + c.RUN_SPEED_BASE * (40 / 100)
    collectedLetters := [] }

/-- collectLetter (store.ts lines 154-199).  Note that in the branch in
which the new letter completes the word while level < MAX_LEVEL, the
code calls advanceLevel and then returns before set(updates) runs, so
the accumulated updates object (score, multiplier, multiplierEndTime,
collectedLetters, speed) is discarded and only the advanceLevel update
is applied.  In the victory branch the code computes
(updates.score || 0) + 5000, where updates.score is falsy exactly when
it equals 0. -/
def collectLetter (c : Consts) (now : ℕ) (index : ℕ) (s : GameState) : GameState :=
  let isComboActive := now < s.multiplierEndTime
  let newMultiplier := if isComboActive then min (s.multiplier + 1) c.MAX_MULTIPLIER else 1
  let newEndTime := now + c.COMBO_WINDOW_MS
  let letterScore : ℤ := 500 * (newMultiplier : ℤ)
  let updScore : ℤ := s.score + letterScore
  if index ∈ s.collectedLetters then
    { s with
      score := updScore
      multiplier := newMultiplier
      multiplierEndTime := newEndTime }
  else
    let newLetters := s.collectedLetters ++ [index]
    let nextSpeed := s.speed + c.RUN_SPEED_BASE * (10 / 100)
    if newLetters.length = GEMINI_TARGET.length then
      if s.level < MAX_LEVEL then
        advanceLevel c s
      else
        { s with
          score := (if updScore = 0 then 0 else updScore) + 5000
          multiplier := newMultiplier
          multiplierEndTime := newEndTime
          collectedLetters := newLetters
          speed := nextSpeed
          status := GameStatus.VICTORY }
    else
      { s with
        score := updScore
        multiplier := newMultiplier
        multiplierEndTime := newEndTime
        collectedLetters := newLetters
        speed := nextSpeed }

/-- openShop (store.ts line 218). -/
def openShop (s : GameState) : GameState :=
  { s with status := GameStatus.SHOP }

/-- closeShop (store.ts line 220). -/
def closeShop (s : GameState) : GameState :=
  { s with status := GameStatus.PLAYING }

/-- The item kinds accepted by buyItem (store.ts line 43). -/
inductive ItemType where
  | DOUBLE_JUMP
  | MAX_LIFE
  | HEAL
  | IMMORTAL
deriving DecidableEq

/-- buyItem (store.ts lines 222-245); returns the boolean result paired
with the updated state.  score, maxLives and lives are the values read
by get() before the cost deduction, exactly as the code destructures
them at the top. -/
def buyItem (t : ItemType) (cost : ℤ) (s : GameState) : Bool × GameState :=
  if s.score ≥ cost then
    let s1 := { s with score := s.score - cost }
    let s2 :=
      match t with
      | ItemType.DOUBLE_JUMP => { s1 with hasDoubleJump := true }
      | ItemType.MAX_LIFE => { s1 with maxLives := s.maxLives + 1, lives := s.lives + 1 }
      | ItemType.HEAL => { s1 with lives := min (s.lives + 1) s.maxLives }
      | ItemType.IMMORTAL => { s1 with hasImmortality := true }
    (true, s2)
  else (false, s)

/-- The synchronous part of activateImmortality (store.ts lines 247-257):
the flag update; the scheduled 5-second timeout is modelled below on
World. -/
def activateImmortality (s : GameState) : GameState :=
  if s.hasImmortality && !s.isImmortalityActive then
    { s with isImmortalityActive := true }
  else s

/-- setStatus (store.ts line 259): writes any status unconditionally. -/
def setStatus (st : GameStatus) (s : GameState) : GameState :=
  { s with status := st }

/-- A pickup event: a gem collection or a letter collection. -/
inductive Pickup where
  | gem (value : ℤ)
  | letter (index : ℕ)

/-- Apply one pickup at time now (dispatch to collectGem or collectLetter). -/
def applyPickup (c : Consts) (now : ℕ) (p : Pickup) (s : GameState) : GameState :=
  match p with
  | Pickup.gem v => collectGem c now v s
  | Pickup.letter i => collectLetter c now i s

/-- The exposed store operations (store.ts lines 31-47), each with the
arguments it takes; time-dependent operations carry the Date.now()
value observed at the call. -/
inductive Op where
  | startGame
  | restartGame
  | takeDamage
  | addScore (amount : ℤ)
  | collectGem (now : ℕ) (value : ℤ)
  | collectLetter (now : ℕ) (index : ℕ)
  | setStatus (st : GameStatus)
  | setDistance (d : ℚ)
  | tickCombo (now : ℕ)
  | buyItem (t : ItemType) (cost : ℤ)
  | advanceLevel
  | openShop
  | closeShop
  | activateImmortality

/-- Interpretation of one operation call on the store state. -/
def applyOp (c : Consts) : Op → GameState → GameState
  | Op.startGame => startGame c
  | Op.restartGame => restartGame c
  | Op.takeDamage => takeDamage
  | Op.addScore a => addScore a
  | Op.collectGem now v => collectGem c now v
  | Op.collectLetter now i => collectLetter c now i
  | Op.setStatus st => setStatus st
  | Op.setDistance d => setDistance d
  | Op.tickCombo now => tickCombo now
  | Op.buyItem t cost => fun s => (buyItem t cost s).2
  | Op.advanceLevel => advanceLevel c
  | Op.openShop => openShop
  | Op.closeShop => closeShop
  | Op.activateImmortality => activateImmortality

/-- The status-transition graph named by the spec: MENU to PLAYING;
PLAYING to SHOP, GAME_OVER or VICTORY; SHOP, GAME_OVER and VICTORY
back to PLAYING. -/
def Edge : GameStatus → GameStatus → Bool
  | GameStatus.MENU, GameStatus.PLAYING => true
  | GameStatus.PLAYING, GameStatus.SHOP => true
  | GameStatus.PLAYING, GameStatus.GAME_OVER => true
  | GameStatus.PLAYING, GameStatus.VICTORY => true
  | GameStatus.SHOP, GameStatus.PLAYING => true
  | GameStatus.GAME_OVER, GameStatus.PLAYING => true
  | GameStatus.VICTORY, GameStatus.PLAYING => true
  | _, _ => false

/-- Which operations a well-behaved presentation layer may invoke in a
given status (spec section 7: operations in an inapplicable state are
simply not invoked).  takeDamage, collectLetter and openShop are
gameplay operations of the PLAYING state; setStatus is an internal
helper absent from the spec operation list and is never applicable. -/
def Applicable : Op → GameStatus → Prop
  | Op.takeDamage, st => st = GameStatus.PLAYING
  | Op.collectLetter _ _, st => st = GameStatus.PLAYING
  | Op.openShop, st => st = GameStatus.PLAYING
  | Op.setStatus _, _ => False
  | _, _ => True

/-- The store together with the queue of pending setTimeout callbacks
scheduled by activateImmortality (store.ts lines 253-255): each entry
is the absolute time at which a callback that unconditionally sets
isImmortalityActive to false will fire.  This models the JavaScript
event loop; nothing in the code ever cancels a scheduled callback. -/
structure World where
  gs : GameState
  timers : List ℕ
deriving DecidableEq

/-- activateImmortality including its deferred timer (store.ts lines
247-257): when the guard passes, the flag is set and one callback is
scheduled 5000 ms ahead. -/
def wActivateImmortality (now : ℕ) (w : World) : World :=
  if w.gs.hasImmortality && !w.gs.isImmortalityActive then
    { gs := { w.gs with isImmortalityActive := true }, timers := w.timers ++ [now + 5000] }
  else w

/-- restartGame on the world: resets the store but leaves any pending
setTimeout callbacks in the event loop, as the code does. -/
def wRestartGame (c : Consts) (w : World) : World :=
  { gs := restartGame c w.gs, timers := w.timers }

/-- buyItem on the world (no timer interaction). -/
def wBuyItem (t : ItemType) (cost : ℤ) (w : World) : World :=
  { gs := (buyItem t cost w.gs).2, timers := w.timers }

/-- A pending immortality callback fires at its scheduled time t: it
unconditionally sets isImmortalityActive to false (store.ts line 254). -/
def wFireTimer (t : ℕ) (w : World) : World :=
  if t ∈ w.timers then
    { gs := { w.gs with isImmortalityActive := false }, timers := w.timers.erase t }
  else w

/-- Beam phases (part_000, beamState field). -/
inductive BeamState where
  | WARNING
  | ACTIVE
deriving DecidableEq

/-- A BOSS_BEAM world object, restricted to the fields its update logic
reads and writes (part_000 lines 302-312 and 334-364): posX is
position[0] = beamLane * LANE_WIDTH. -/
structure BossBeam where
  posX : ℚ
  beamTimer : ℚ
  beamState : BeamState
  active : Bool
deriving DecidableEq

/-- Result of one per-frame update of a BOSS_BEAM object: the mutated
object, whether a player-hit event was dispatched this frame, and
whether the object was dropped from the kept object set. -/
structure BeamStepResult where
  beam : BossBeam
  hitPlayer : Bool
  removed : Bool
deriving DecidableEq

/-- Per-frame BOSS_BEAM update (part_000 lines 334-364): the timer
accumulates the clamped frame delta; below 2.0 s the beam telegraphs
(WARNING, no hit); from 2.0 s to 3.0 s it is ACTIVE and dispatches a
player-hit event exactly when the lane distance to the player is below
0.9; at 3.0 s it is deactivated and not pushed to the kept set. -/
def beamStep (dt playerX : ℚ) (b : BossBeam) : BeamStepResult :=
  let b1 := { b with beamTimer := b.beamTimer + dt }
  if b1.beamTimer < 2 then
    { beam := { b1 with beamState := BeamState.WARNING }, hitPlayer := false, removed := false }
  else if b1.beamTimer < 3 then
    { beam := { b1 with beamState := BeamState.ACTIVE }
      hitPlayer := decide (|b1.posX - playerX| < 9 / 10)
      removed := false }
  else
    { beam := { b1 with active := false }, hitPlayer := false, removed := true }

/-- Concrete constants used by witnesses and counterexamples:
MAX_MULTIPLIER 8, COMBO_WINDOW_MS 2000, RUN_SPEED_BASE 10. -/
def c0 : Consts := { MAX_MULTIPLIER := 8, COMBO_WINDOW_MS := 2000, RUN_SPEED_BASE := 10 }

/-- A mid-run PLAYING state at level 1 with five distinct letters. -/
def sFive : GameState :=
  { initialState with
    status := GameStatus.PLAYING
    speed := 10
    collectedLetters := [0, 1, 2, 3, 4] }

/-- The same state at the final level. -/
def sFiveL3 : GameState :=
  { sFive with level := 3 }

/-- A five-letter PLAYING state with a live combo window ending at 10. -/
def sFiveCombo : GameState :=
  { sFive with multiplierEndTime := 10 }

/-- A PLAYING state on its last life. -/
def sOneLife : GameState :=
  { initialState with status := GameStatus.PLAYING, lives := 1 }

/-- A state with a shop budget. -/
def sRich : GameState :=
  { initialState with status := GameStatus.SHOP, score := 100 }

/-- C5: takeDamage is a complete no-op when isImmortalityActive is true;
otherwise it sets multiplier to 1 and multiplierEndTime to 0 and, if
lives > 1, decrements lives by 1, else sets lives = 0, status GAME_OVER
and speed = 0; one call preserves non-negativity of lives, so repeated
calls never take lives below 0. -/
theorem takeDamage_spec (s : GameState) :
    (s.isImmortalityActive = true → takeDamage s = s)
    ∧ (s.isImmortalityActive = false →
        (takeDamage s).multiplier = 1
        ∧ (takeDamage s).multiplierEndTime = 0
        ∧ (s.lives > 1 →
            (takeDamage s).lives = s.lives - 1
            ∧ (takeDamage s).status = s.status
            ∧ (takeDamage s).speed = s.speed)
        ∧ (s.lives ≤ 1 →
            (takeDamage s).lives = 0
            ∧ (takeDamage s).status = GameStatus.GAME_OVER
            ∧ (takeDamage s).speed = 0))
    ∧ (0 ≤ s.lives → 0 ≤ (takeDamage s).lives) := by
  refine ⟨?_, ?_, ?_⟩
  · intro him
    unfold takeDamage
    rw [if_pos him]
  · intro him
    unfold takeDamage
    rw [if_neg (by simp [him])]
    by_cases hl : s.lives > 1
    · rw [if_pos hl]
      exact ⟨rfl, rfl, fun _ => ⟨rfl, rfl, rfl⟩, fun hle => absurd hl (by omega)⟩
    · rw [if_neg hl]
      exact ⟨rfl, rfl, fun hgt => absurd hgt hl, fun _ => ⟨rfl, rfl, rfl⟩⟩
  · intro hnn
    unfold takeDamage
    by_cases him : s.isImmortalityActive
    · rw [if_pos him]
      exact hnn
    · rw [if_neg him]
      by_cases hl : s.lives > 1
      · rw [if_pos hl]
        show 0 ≤ s.lives - 1
        omega
      · rw [if_neg hl]

/-- C5 witness: on the last life, takeDamage ends the run. -/
theorem takeDamage_spec_witness :
    (takeDamage sOneLife).lives = 0
    ∧ (takeDamage sOneLife).status = GameStatus.GAME_OVER
    ∧ (takeDamage sOneLife).speed = 0 :=
  ((takeDamage_spec sOneLife).2.1 rfl).2.2.2 (by decide)

/-- C8: when score < cost, buyItem returns false and leaves the state
unchanged; and whenever buyItem HEAL succeeds, lives becomes
min(old lives + 1, maxLives), hence never exceeds maxLives. -/
theorem buyItem_insufficient_and_heal_cap (t : ItemType) (cost : ℤ) (s : GameState) :
    (s.score < cost → buyItem t cost s = (false, s))
    ∧ ((buyItem ItemType.HEAL cost s).1 = true →
        (buyItem ItemType.HEAL cost s).2.lives = min (s.lives + 1) s.maxLives
        ∧ (buyItem ItemType.HEAL cost s).2.lives ≤ (buyItem ItemType.HEAL cost s).2.maxLives) := by
  constructor
  · intro h
    unfold buyItem
    rw [if_neg (by omega)]
  · intro h
    by_cases hs : s.score ≥ cost
    · unfold buyItem
      rw [if_pos hs]
      refine ⟨rfl, ?_⟩
      show min (s.lives + 1) s.maxLives ≤ s.maxLives
      omega
    · exfalso
      unfold buyItem at h
      rw [if_neg hs] at h
      exact Bool.false_ne_true h

/-- C8 witness: in the initial state a 100-cost purchase is rejected and
the state is untouched. -/
theorem buyItem_insufficient_witness :
    buyItem ItemType.HEAL 100 initialState = (false, initialState) :=
  (buyItem_insufficient_and_heal_cap ItemType.HEAL 100 initialState).1 (by decide)

/-- C10: buying HEAL with enough score while lives already equal maxLives
still returns true and deducts the cost, leaving lives and maxLives
unchanged. -/
theorem buyItem_heal_full_lives (cost : ℤ) (s : GameState)
    (h1 : cost ≤ s.score) (h2 : s.lives = s.maxLives) :
    (buyItem ItemType.HEAL cost s).1 = true
    ∧ (buyItem ItemType.HEAL cost s).2.score = s.score - cost
    ∧ (buyItem ItemType.HEAL cost s).2.lives = s.lives
    ∧ (buyItem ItemType.HEAL cost s).2.maxLives = s.maxLives := by
  unfold buyItem
  rw [if_pos (by omega)]
  refine ⟨rfl, rfl, ?_, rfl⟩
  show min (s.lives + 1) s.maxLives = s.lives
  omega

/-- C10 witness: a full-lives HEAL purchase at cost 40 from score 100. -/
theorem buyItem_heal_full_lives_witness :
    (buyItem ItemType.HEAL 40 sRich).1 = true
    ∧ (buyItem ItemType.HEAL 40 sRich).2.score = sRich.score - 40
    ∧ (buyItem ItemType.HEAL 40 sRich).2.lives = sRich.lives
    ∧ (buyItem ItemType.HEAL 40 sRich).2.maxLives = sRich.maxLives :=
  buyItem_heal_full_lives 40 sRich (by decide) (by decide)

/-- C2: from a PLAYING state below MAX_LEVEL holding exactly five
distinct letters, collecting the remaining sixth index performs exactly
one advanceLevel: level + 1, laneCount + 2 capped at 9, letters
cleared, speed + 0.4 x RUN_SPEED_BASE, status still PLAYING. -/
theorem collectLetter_advances_level (c : Consts) (now index : ℕ) (s : GameState)
    (_hst : s.status = GameStatus.PLAYING)
    (hlvl : s.level < MAX_LEVEL)
    (hlen : s.collectedLetters.length = 5)
    (_hnd : s.collectedLetters.Nodup)
    (hnew : index ∉ s.collectedLetters) :
    collectLetter c now index s = advanceLevel c s
    ∧ (collectLetter c now index s).level = s.level + 1
    ∧ (collectLetter c now index s).laneCount = min (s.laneCount + 2) 9
    ∧ (collectLetter c now index s).collectedLetters = []
    ∧ (collectLetter c now index s).speed = s.speed + c.RUN_SPEED_BASE * (40 / 100)
    ∧ (collectLetter c now index s).status = GameStatus.PLAYING := by
  have h6 : (s.collectedLetters ++ [index]).length = GEMINI_TARGET.length := by
    simp [GEMINI_TARGET, hlen]
  have heq : collectLetter c now index s = advanceLevel c s := by
    simp only [collectLetter]
    rw [if_neg hnew, if_pos h6, if_pos hlvl]
  rw [heq]
  exact ⟨rfl, rfl, rfl, rfl, rfl, rfl⟩

/-- C2 witness: collecting the sixth letter at level 1. -/
theorem collectLetter_advances_level_witness :
    collectLetter c0 0 5 sFive = advanceLevel c0 sFive
    ∧ (collectLetter c0 0 5 sFive).level = sFive.level + 1
    ∧ (collectLetter c0 0 5 sFive).laneCount = min (sFive.laneCount + 2) 9
    ∧ (collectLetter c0 0 5 sFive).collectedLetters = []
    ∧ (collectLetter c0 0 5 sFive).speed = sFive.speed + c0.RUN_SPEED_BASE * (40 / 100)
    ∧ (collectLetter c0 0 5 sFive).status = GameStatus.PLAYING :=
  collectLetter_advances_level c0 0 5 sFive rfl (by decide) (by decide) (by decide) (by decide)

/-- C3: from a PLAYING state at MAX_LEVEL holding exactly five distinct
letters, collecting the remaining sixth index sets status VICTORY and
adds 5000 plus the combo letter score of 500 x newMultiplier. -/
theorem collectLetter_victory (c : Consts) (now index : ℕ) (s : GameState)
    (hc : 1 ≤ c.MAX_MULTIPLIER)
    (_hst : s.status = GameStatus.PLAYING)
    (hsc : 0 ≤ s.score)
    (hlvl : s.level = MAX_LEVEL)
    (hlen : s.collectedLetters.length = 5)
    (_hnd : s.collectedLetters.Nodup)
    (hnew : index ∉ s.collectedLetters) :
    (collectLetter c now index s).status = GameStatus.VICTORY
    ∧ (collectLetter c now index s).score
        = s.score + 500 * ((if now < s.multiplierEndTime
            then min (s.multiplier + 1) c.MAX_MULTIPLIER else 1 : ℕ) : ℤ) + 5000 := by
  have h6 : (s.collectedLetters ++ [index]).length = GEMINI_TARGET.length := by
    simp [GEMINI_TARGET, hlen]
  have hnl : ¬ s.level < MAX_LEVEL := by
    rw [hlvl]
    omega
  have hm : 1 ≤ (if now < s.multiplierEndTime
      then min (s.multiplier + 1) c.MAX_MULTIPLIER else 1) := by
    split <;> omega
  have hmz : (1 : ℤ) ≤ ((if now < s.multiplierEndTime
      then min (s.multiplier + 1) c.MAX_MULTIPLIER else 1 : ℕ) : ℤ) := by
    exact_mod_cast hm
  have hupd : ¬ s.score + 500 * ((if now < s.multiplierEndTime
      then min (s.multiplier + 1) c.MAX_MULTIPLIER else 1 : ℕ) : ℤ) = 0 := by
    intro h
    nlinarith
  simp only [collectLetter]
  rw [if_neg hnew, if_pos h6, if_neg hnl, if_neg hupd]
  exact ⟨rfl, rfl⟩

/-- C3 witness: collecting the sixth letter at level 3 with score 0 and
an inactive combo yields VICTORY and score 5500. -/
theorem collectLetter_victory_witness :
    (collectLetter c0 0 5 sFiveL3).status = GameStatus.VICTORY
    ∧ (collectLetter c0 0 5 sFiveL3).score = 5500 := by
  have h := collectLetter_victory c0 0 5 sFiveL3 (by decide) rfl (by decide) rfl
    (by decide) (by decide) (by decide)
  refine ⟨h.1, ?_⟩
  rw [h.2]
  decide

/-- C1 counterexample: at the input completing the sixth letter while
level < MAX_LEVEL, collectLetter leaves the score unchanged instead of
adding 500 x newMultiplier (here newMultiplier = 1 since the combo is
inactive) and does not refresh multiplierEndTime to
now + COMBO_WINDOW_MS: the claimed universal score rule is false. -/
theorem collectLetter_completing_drops_score :
    ¬ (0 : ℕ) < sFive.multiplierEndTime
    ∧ (collectLetter c0 0 5 sFive).score = sFive.score
    ∧ sFive.score + 500 * 1 ≠ sFive.score
    ∧ (collectLetter c0 0 5 sFive).multiplierEndTime ≠ 0 + c0.COMBO_WINDOW_MS := by
  decide

/-- C1 amended: every collectLetter call adds exactly
500 x newMultiplier to score and refreshes multiplierEndTime to
now + COMBO_WINDOW_MS, with two exceptions for the call whose index
completes all WORD_LENGTH distinct letters: at level < MAX_LEVEL the
call leaves score, multiplier and multiplierEndTime unchanged (only
advanceLevel runs), and at level = MAX_LEVEL the 5000 victory bonus is
added on top. -/
theorem collectLetter_score_update (c : Consts) (now index : ℕ) (s : GameState)
    (hc : 1 ≤ c.MAX_MULTIPLIER) (hsc : 0 ≤ s.score) :
    ((index ∉ s.collectedLetters
        ∧ s.collectedLetters.length + 1 = GEMINI_TARGET.length
        ∧ s.level < MAX_LEVEL) →
      (collectLetter c now index s).score = s.score
      ∧ (collectLetter c now index s).multiplier = s.multiplier
      ∧ (collectLetter c now index s).multiplierEndTime = s.multiplierEndTime)
    ∧ ((index ∉ s.collectedLetters
        ∧ s.collectedLetters.length + 1 = GEMINI_TARGET.length
        ∧ ¬ s.level < MAX_LEVEL) →
      (collectLetter c now index s).score
          = s.score + 500 * ((if now < s.multiplierEndTime
              then min (s.multiplier + 1) c.MAX_MULTIPLIER else 1 : ℕ) : ℤ) + 5000
      ∧ (collectLetter c now index s).multiplier
          = (if now < s.multiplierEndTime then min (s.multiplier + 1) c.MAX_MULTIPLIER else 1)
      ∧ (collectLetter c now index s).multiplierEndTime = now + c.COMBO_WINDOW_MS)
    ∧ (¬(index ∉ s.collectedLetters
        ∧ s.collectedLetters.length + 1 = GEMINI_TARGET.length) →
      (collectLetter c now index s).score
          = s.score + 500 * ((if now < s.multiplierEndTime
              then min (s.multiplier + 1) c.MAX_MULTIPLIER else 1 : ℕ) : ℤ)
      ∧ (collectLetter c now index s).multiplier
          = (if now < s.multiplierEndTime then min (s.multiplier + 1) c.MAX_MULTIPLIER else 1)
      ∧ (collectLetter c now index s).multiplierEndTime = now + c.COMBO_WINDOW_MS) := by
  refine ⟨?_, ?_, ?_⟩
  · rintro ⟨hnew, hlen6, hlvl⟩
    have h6 : (s.collectedLetters ++ [index]).length = GEMINI_TARGET.length := by
      simpa using hlen6
    simp only [collectLetter]
    rw [if_neg hnew, if_pos h6, if_pos hlvl]
    exact ⟨rfl, rfl, rfl⟩
  · rintro ⟨hnew, hlen6, hlvl⟩
    have h6 : (s.collectedLetters ++ [index]).length = GEMINI_TARGET.length := by
      simpa using hlen6
    have hm : 1 ≤ (if now < s.multiplierEndTime
        then min (s.multiplier + 1) c.MAX_MULTIPLIER else 1) := by
      split <;> omega
    have hmz : (1 : ℤ) ≤ ((if now < s.multiplierEndTime
        then min (s.multiplier + 1) c.MAX_MULTIPLIER else 1 : ℕ) : ℤ) := by
      exact_mod_cast hm
    have hupd : ¬ s.score + 500 * ((if now < s.multiplierEndTime
        then min (s.multiplier + 1) c.MAX_MULTIPLIER else 1 : ℕ) : ℤ) = 0 := by
      intro h
      nlinarith
    simp only [collectLetter]
    rw [if_neg hnew, if_pos h6, if_neg hlvl, if_neg hupd]
    exact ⟨rfl, rfl, rfl⟩
  · intro hna
    by_cases hmem : index ∈ s.collectedLetters
    · simp only [collectLetter]
      rw [if_pos hmem]
      exact ⟨rfl, rfl, rfl⟩
    · have hlen6 : ¬ s.collectedLetters.length + 1 = GEMINI_TARGET.length := by
        intro h
        exact hna ⟨hmem, h⟩
      have h6 : ¬ (s.collectedLetters ++ [index]).length = GEMINI_TARGET.length := by
        simpa using hlen6
      simp only [collectLetter]
      rw [if_neg hmem, if_neg h6]
      exact ⟨rfl, rfl, rfl⟩

/-- C1 amended witness: an ordinary first letter at time 100 scores 500
and refreshes the window to 2100. -/
theorem collectLetter_score_update_witness :
    (collectLetter c0 100 0 initialState).score = 500
    ∧ (collectLetter c0 100 0 initialState).multiplierEndTime = 2100 := by
  have h := (collectLetter_score_update c0 100 0 initialState (by decide) (by decide)).2.2
    (by decide)
  refine ⟨?_, ?_⟩
  · rw [h.1]
    decide
  · rw [h.2.2]
    decide

/-- C4 counterexample: a letter pickup inside the live combo window
(endTime 10, pickup at 5, previous gap below COMBO_WINDOW_MS) whose
index completes the word at level 1 leaves the multiplier at 1 instead
of strictly increasing it to 2 (1 < MAX_MULTIPLIER = 8): the claimed
per-pickup strict increase is false. -/
theorem completing_letter_breaks_combo_chain :
    (5 : ℕ) < sFiveCombo.multiplierEndTime
    ∧ sFiveCombo.multiplier < c0.MAX_MULTIPLIER
    ∧ (collectLetter c0 5 5 sFiveCombo).multiplier ≠ sFiveCombo.multiplier + 1
    ∧ (collectLetter c0 5 5 sFiveCombo).multiplier = sFiveCombo.multiplier := by
  decide

/-- C4 amended: every collectGem call, and every collectLetter call
except one whose index completes all six letters at level < MAX_LEVEL,
updates the multiplier to min(multiplier + 1, MAX_MULTIPLIER) when the
pickup lands strictly inside the combo window (strict + 1 below the
cap, plateau at the cap) and to 1 when it lands at or after
multiplierEndTime, and refreshes multiplierEndTime to
now + COMBO_WINDOW_MS; the excluded level-advancing letter leaves
multiplier and multiplierEndTime unchanged. -/
theorem pickup_multiplier_update (c : Consts) (now : ℕ) (p : Pickup) (s : GameState)
    (hx : ∀ i, p = Pickup.letter i →
      ¬(i ∉ s.collectedLetters
        ∧ s.collectedLetters.length + 1 = GEMINI_TARGET.length
        ∧ s.level < MAX_LEVEL)) :
    (now < s.multiplierEndTime →
        (applyPickup c now p s).multiplier = min (s.multiplier + 1) c.MAX_MULTIPLIER)
    ∧ (now < s.multiplierEndTime → s.multiplier < c.MAX_MULTIPLIER →
        (applyPickup c now p s).multiplier = s.multiplier + 1)
    ∧ (now < s.multiplierEndTime → c.MAX_MULTIPLIER ≤ s.multiplier →
        (applyPickup c now p s).multiplier = c.MAX_MULTIPLIER)
    ∧ (s.multiplierEndTime ≤ now → (applyPickup c now p s).multiplier = 1)
    ∧ (applyPickup c now p s).multiplierEndTime = now + c.COMBO_WINDOW_MS := by
  have hmul : (applyPickup c now p s).multiplier
      = (if now < s.multiplierEndTime then min (s.multiplier + 1) c.MAX_MULTIPLIER else 1)
      ∧ (applyPickup c now p s).multiplierEndTime = now + c.COMBO_WINDOW_MS := by
    cases p with
    | gem v =>
      simp [applyPickup, collectGem]
    | letter i =>
      have hni := hx i rfl
      simp only [applyPickup]
      by_cases hmem : i ∈ s.collectedLetters
      · simp only [collectLetter]
        rw [if_pos hmem]
        exact ⟨rfl, rfl⟩
      · by_cases hlen6 : s.collectedLetters.length + 1 = GEMINI_TARGET.length
        · have hnl : ¬ s.level < MAX_LEVEL := fun h => hni ⟨hmem, hlen6, h⟩
          have h6 : (s.collectedLetters ++ [i]).length = GEMINI_TARGET.length := by
            simpa using hlen6
          simp only [collectLetter]
          rw [if_neg hmem, if_pos h6, if_neg hnl]
          split
          · exact ⟨rfl, rfl⟩
          · exact ⟨rfl, rfl⟩
        · have h6 : ¬ (s.collectedLetters ++ [i]).length = GEMINI_TARGET.length := by
            simpa using hlen6
          simp only [collectLetter]
          rw [if_neg hmem, if_neg h6]
          exact ⟨rfl, rfl⟩
  refine ⟨?_, ?_, ?_, ?_, hmul.2⟩
  · intro hact
    rw [hmul.1, if_pos hact]
  · intro hact hlt
    rw [hmul.1, if_pos hact]
    omega
  · intro hact hge
    rw [hmul.1, if_pos hact]
    omega
  · intro hexp
    rw [hmul.1, if_neg (by omega)]

/-- C4 amended witness: a gem pickup inside the window raises the
multiplier from 1 to 2 and refreshes the window to 2005. -/
theorem pickup_multiplier_update_witness :
    (applyPickup c0 5 (Pickup.gem 50) sFiveCombo).multiplier = 2
    ∧ (applyPickup c0 5 (Pickup.gem 50) sFiveCombo).multiplierEndTime = 2005 := by
  have h := pickup_multiplier_update c0 5 (Pickup.gem 50) sFiveCombo
    (fun i hi => Pickup.noConfusion hi)
  refine ⟨?_, ?_⟩
  · rw [h.2.1 (by decide) (by decide)]
    decide
  · rw [h.2.2.2.2]
    decide

/-- C6 counterexample: openShop is not guarded by the current status, so
calling it from the initial MENU state produces the transition
MENU to SHOP, which is not an edge of the claimed graph (and setStatus
likewise writes any status from any state): the claim as stated is
false. -/
theorem openShop_from_menu_breaks_graph :
    initialState.status = GameStatus.MENU
    ∧ (applyOp c0 Op.openShop initialState).status = GameStatus.SHOP
    ∧ Edge GameStatus.MENU GameStatus.SHOP = false := by
  decide

/-- C6 amended: excluding the unguarded internal setStatus, and with
takeDamage, collectLetter and openShop invoked only while PLAYING (the
applicability discipline the spec assumes of the presentation layer),
every status change produced by an operation call follows an edge of
the graph MENU to PLAYING; PLAYING to SHOP, GAME_OVER or VICTORY;
SHOP, GAME_OVER or VICTORY to PLAYING. -/
theorem guarded_ops_follow_graph (c : Consts) (op : Op) (s : GameState)
    (happ : Applicable op s.status)
    (hch : (applyOp c op s).status ≠ s.status) :
    Edge s.status (applyOp c op s).status = true := by
  have edge_to_playing : ∀ st : GameStatus, st ≠ GameStatus.PLAYING →
      Edge st GameStatus.PLAYING = true := by
    intro st h
    cases st
    · rfl
    · exact absurd rfl h
    · rfl
    · rfl
    · rfl
  cases op with
  | startGame =>
      have h : (applyOp c Op.startGame s).status = GameStatus.PLAYING := rfl
      rw [h] at hch ⊢
      exact edge_to_playing s.status (Ne.symm hch)
  | restartGame =>
      have h : (applyOp c Op.restartGame s).status = GameStatus.PLAYING := rfl
      rw [h] at hch ⊢
      exact edge_to_playing s.status (Ne.symm hch)
  | takeDamage =>
      have hp : s.status = GameStatus.PLAYING := happ
      have htri : (applyOp c Op.takeDamage s).status = s.status
          ∨ (applyOp c Op.takeDamage s).status = GameStatus.GAME_OVER := by
        simp only [applyOp, takeDamage]
        split
        · exact Or.inl rfl
        · split
          · exact Or.inl rfl
          · exact Or.inr rfl
      rcases htri with h | h
      · exact absurd h hch
      · rw [h, hp]
        rfl
  | addScore a => exact absurd rfl hch
  | collectGem now v => exact absurd rfl hch
  | collectLetter now i =>
      have hp : s.status = GameStatus.PLAYING := happ
      have htri : (applyOp c (Op.collectLetter now i) s).status = s.status
          ∨ (applyOp c (Op.collectLetter now i) s).status = GameStatus.PLAYING
          ∨ (applyOp c (Op.collectLetter now i) s).status = GameStatus.VICTORY := by
        simp only [applyOp, collectLetter]
        split
        · exact Or.inl rfl
        · split
          · split
            · exact Or.inr (Or.inl rfl)
            · exact Or.inr (Or.inr rfl)
          · exact Or.inl rfl
      rcases htri with h | h | h
      · exact absurd h hch
      · rw [hp] at hch
        exact absurd h hch
      · rw [h, hp]
        rfl
  | setStatus st => exact happ.elim
  | setDistance d => exact absurd rfl hch
  | tickCombo now =>
      by_cases hg : s.status = GameStatus.PLAYING ∧ s.multiplier > 1 ∧ now > s.multiplierEndTime
      · have h : (applyOp c (Op.tickCombo now) s).status = s.status := by
          simp only [applyOp, tickCombo]
          rw [if_pos hg]
        exact absurd h hch
      · have h : (applyOp c (Op.tickCombo now) s).status = s.status := by
          simp only [applyOp, tickCombo]
          rw [if_neg hg]
        exact absurd h hch
  | buyItem t cost =>
      by_cases hs : s.score ≥ cost
      · have h : (applyOp c (Op.buyItem t cost) s).status = s.status := by
          simp only [applyOp, buyItem]
          rw [if_pos hs]
          cases t <;> rfl
        exact absurd h hch
      · have h : (applyOp c (Op.buyItem t cost) s).status = s.status := by
          simp only [applyOp, buyItem]
          rw [if_neg hs]
        exact absurd h hch
  | advanceLevel =>
      have h : (applyOp c Op.advanceLevel s).status = GameStatus.PLAYING := rfl
      rw [h] at hch ⊢
      exact edge_to_playing s.status (Ne.symm hch)
  | openShop =>
      have hp : s.status = GameStatus.PLAYING := happ
      have h : (applyOp c Op.openShop s).status = GameStatus.SHOP := rfl
      rw [h, hp]
      rfl
  | closeShop =>
      have h : (applyOp c Op.closeShop s).status = GameStatus.PLAYING := rfl
      rw [h] at hch ⊢
      exact edge_to_playing s.status (Ne.symm hch)
  | activateImmortality =>
      by_cases hg : (s.hasImmortality && !s.isImmortalityActive) = true
      · have h : (applyOp c Op.activateImmortality s).status = s.status := by
          simp only [applyOp, activateImmortality]
          rw [if_pos hg]
        exact absurd h hch
      · have h : (applyOp c Op.activateImmortality s).status = s.status := by
          simp only [applyOp, activateImmortality]
          rw [if_neg hg]
        exact absurd h hch

/-- C6 amended witness: takeDamage on the last life while PLAYING takes
the edge PLAYING to GAME_OVER. -/
theorem guarded_ops_follow_graph_witness :
    Edge sOneLife.status (applyOp c0 Op.takeDamage sOneLife).status = true :=
  guarded_ops_follow_graph c0 Op.takeDamage sOneLife rfl (by decide)

/-- World state after startGame with an empty timer queue. -/
def wStart : World := { gs := startGame c0 initialState, timers := [] }

/-- First run: the ability is bought (cost 0 from score 0) and activated
at t = 0, scheduling a callback for t = 5000. -/
def wRun1 : World := wActivateImmortality 0 (wBuyItem ItemType.IMMORTAL 0 wStart)

/-- The run is restarted at t = 1000 (the pending callback survives),
the ability is bought again and activated at t = 2000, scheduling a
second callback for t = 7000. -/
def wRun2 : World :=
  wActivateImmortality 2000 (wBuyItem ItemType.IMMORTAL 0 (wRestartGame c0 wRun1))

/-- The stale first-run callback fires at t = 5000. -/
def wAfterStale : World := wFireTimer 5000 wRun2

/-- C7: the stale immortality callback from the previous run is still
pending after restartGame, and when it fires at t = 5000 it clears the
new activation made at t = 2000, whose own 5-second duration would
only elapse at t = 7000 — the claimed non-interference is violated by
the code. -/
theorem stale_timer_clears_new_activation :
    wRun1.timers = [5000]
    ∧ wRun2.gs.isImmortalityActive = true
    ∧ wRun2.timers = [5000, 7000]
    ∧ wAfterStale.gs.isImmortalityActive = false
    ∧ wAfterStale.timers = [7000]
    ∧ (5000 : ℕ) < 2000 + 5000 := by
  decide

/-- C9: on a simulation step of dt, a BOSS_BEAM accumulates dt on its
timer; below 2.0 s it is WARNING with no player-hit event; from 2.0 s
up to 3.0 s it is ACTIVE and emits a player-hit event exactly when the
horizontal distance between its lane x-offset and the player x-position
is strictly below 0.9; from 3.0 s it is deactivated and removed. -/
theorem beamStep_spec (dt playerX : ℚ) (b : BossBeam) :
    (beamStep dt playerX b).beam.beamTimer = b.beamTimer + dt
    ∧ (b.beamTimer + dt < 2 →
        (beamStep dt playerX b).beam.beamState = BeamState.WARNING
        ∧ (beamStep dt playerX b).hitPlayer = false
        ∧ (beamStep dt playerX b).removed = false)
    ∧ (2 ≤ b.beamTimer + dt → b.beamTimer + dt < 3 →
        (beamStep dt playerX b).beam.beamState = BeamState.ACTIVE
        ∧ ((beamStep dt playerX b).hitPlayer = true ↔ |b.posX - playerX| < 9 / 10)
        ∧ (beamStep dt playerX b).removed = false)
    ∧ (3 ≤ b.beamTimer + dt →
        (beamStep dt playerX b).beam.active = false
        ∧ (beamStep dt playerX b).hitPlayer = false
        ∧ (beamStep dt playerX b).removed = true) := by
  simp only [beamStep]
  by_cases h1 : b.beamTimer + dt < 2
  · rw [if_pos h1]
    exact ⟨rfl, fun _ => ⟨rfl, rfl, rfl⟩,
      fun h2 _ => absurd h1 (not_lt.mpr (by linarith)),
      fun h3 => absurd h1 (not_lt.mpr (by linarith))⟩
  · by_cases h2 : b.beamTimer + dt < 3
    · rw [if_neg h1, if_pos h2]
      exact ⟨rfl, fun hlt => absurd hlt h1,
        fun _ _ => ⟨rfl, ⟨of_decide_eq_true, decide_eq_true⟩, rfl⟩,
        fun h3 => absurd h2 (not_lt.mpr h3)⟩
    · rw [if_neg h1, if_neg h2]
      exact ⟨rfl, fun hlt => absurd hlt h1,
        fun _ hlt => absurd hlt h2,
        fun _ => ⟨rfl, rfl, rfl⟩⟩

/-- A beam centred on the player lane, fresh from spawning. -/
def beam0 : BossBeam :=
  { posX := 0, beamTimer := 0, beamState := BeamState.WARNING, active := true }

/-- C9 witness: a 2.5 s step on a fresh beam over the player lane lands
in the ACTIVE phase, hits the player and keeps the beam. -/
theorem beamStep_spec_witness :
    (beamStep (5 / 2) 0 beam0).beam.beamState = BeamState.ACTIVE
    ∧ (beamStep (5 / 2) 0 beam0).hitPlayer = true
    ∧ (beamStep (5 / 2) 0 beam0).removed = false := by
  have h := (beamStep_spec (5 / 2) 0 beam0).2.2.1 (by norm_num [beam0]) (by norm_num [beam0])
  exact ⟨h.1, h.2.1.mpr (by norm_num [beam0]), h.2.2⟩

end RunningKing
